import Mathlib

/-!
# Verification of the session/connection registry and response-delivery core

Shallow embedding of the MCP↔Chatmi relay server (`src/server.js` and the
variant files `src/unnamed/part_000` … `part_003`).  Pure fragments of the
JavaScript are translated to executable Lean definitions; the stateful
registry/cache logic is modelled by explicit state passing.  Connection
objects are represented by their three transport-layer writability flags,
the backend by an oracle value, and time by integer milliseconds.
-/

namespace McpRelay

/-- JavaScript truthiness for an optional string value
(`undefined`/`null` and the empty string are falsy). -/
def truthy : Option String → Bool
  | some s => !(s == "")
  | none => false

/-- JavaScript `a || b` on optional string values. -/
def jsOr (a b : Option String) : Option String :=
  if truthy a then a else b

/-- Transport-layer state of an SSE response stream, as observed by the
delivery code (`connection.writableEnded`, `connection.writableFinished`,
`connection.destroyed`). -/
structure Conn where
  writableEnded : Bool
  writableFinished : Bool
  destroyed : Bool
deriving DecidableEq, Repr

/-- The liveness test of `writeToConnection` in `src/server.js` (line 214):
`!connection.writableEnded && !connection.writableFinished && !connection.destroyed`. -/
def isWritableServer (c : Conn) : Bool :=
  !c.writableEnded && !c.writableFinished && !c.destroyed

/-- The liveness test of `writeToConnection` in `src/unnamed/part_001`
(line 302): `!connection.writableEnded && !connection.destroyed`
(the `writableFinished` flag is not consulted there). -/
def isWritable01 (c : Conn) : Bool :=
  !c.writableEnded && !c.destroyed

/-- The `connections` map (session identifier → SSE stream), in insertion
order, as a JavaScript `Map` is iterated. -/
abbrev Registry := List (String × Conn)

/-- `writeToConnection` of `src/server.js`: performs the single `data:` frame
write when the connection is writable, otherwise skips it.  Returns the
target session identifier when a write was performed. -/
def writeToConnection (e : String × Conn) : Option String :=
  if isWritableServer e.2 then some e.1 else none

/-- `writeToConnection` of `src/unnamed/part_001` (two-flag liveness test). -/
def writeToConnection01 (e : String × Conn) : Option String :=
  if isWritable01 e.2 then some e.1 else none

/-- The four delivery branches of `writeSsePayload` in `src/server.js`
(named after the outcomes in the specification §4.2). -/
inductive DeliveryOutcome where
  | deliveredExact
  | deliveredFallbackSingle
  | deliveredFallbackBroadcast
  | noChannel
deriving DecidableEq, Repr

/-- The branch taken by `writeSsePayload` when `sessionId` is falsy or not a
key of `connections`: exactly one connection → that one; several → all;
none → no write (lines 227-252 of `src/server.js`). -/
def fallbackSelection (conns : Registry) : Registry × DeliveryOutcome :=
  match conns with
  | [] => ([], .noChannel)
  | [e] => ([e], .deliveredFallbackSingle)
  | es => (es, .deliveredFallbackBroadcast)

/-- The guard `sessionId && connections.has(sessionId)` of
`src/server.js` line 225, returning the matched entry. -/
def jsMatch (conns : Registry) (sid : Option String) : Option (String × Conn) :=
  match sid with
  | some s =>
    if s ≠ "" then
      match conns.lookup s with
      | some c => some (s, c)
      | none => none
    else none
  | none => none

/-- The connections selected by `writeSsePayload` (`src/server.js`
lines 225-252) together with the branch taken. -/
def selectedConnections (conns : Registry) (sid : Option String) :
    Registry × DeliveryOutcome :=
  match jsMatch conns sid with
  | some e => ([e], .deliveredExact)
  | none => fallbackSelection conns

/-- `writeSsePayload` of `src/server.js`: selects target connections and
performs the per-connection writability-gated writes.  Returns the list of
session identifiers actually written to, with the branch taken. -/
def writeSsePayload (conns : Registry) (sid : Option String) :
    List String × DeliveryOutcome :=
  let sel := selectedConnections conns sid
  (sel.1.filterMap writeToConnection, sel.2)

/-- A JSON-RPC reply payload: a result or an error `{ code, message }`. -/
inductive RpcPayload where
  | result (s : String)
  | rpcError (code : Int) (message : String)
deriving DecidableEq, Repr

/-- A JSON-RPC 2.0 response envelope
`{ jsonrpc: '2.0', id, result | error }`. -/
structure McpResponse where
  reqId : Option Int
  payload : RpcPayload
deriving DecidableEq, Repr

/-- What the synchronous HTTP response body to the triggering POST holds:
the full reply envelope, or the lightweight `{ status: 'sent via SSE' }`
acknowledgement. -/
inductive HttpBody where
  | full (r : McpResponse)
  | ackSse (sid : String)
deriving DecidableEq, Repr

/-- Result of one delivery: the push writes performed and the synchronous
HTTP response produced. -/
structure DeliveryResult where
  sseWrites : List String
  httpStatus : Nat
  httpBody : HttpBody
deriving DecidableEq, Repr

/-- `deliverMcpResponse` of `src/server.js` (lines 255-282): writes the
envelope through `writeSsePayload`, then always answers the HTTP POST with
`res.status(statusCode).json(response)` — the full response envelope. -/
def deliverMcpResponseServer (conns : Registry) (sid : Option String)
    (r : McpResponse) (statusCode : Nat) : DeliveryResult :=
  { sseWrites := (writeSsePayload conns sid).1
    httpStatus := statusCode
    httpBody := .full r }

/-- The delivery tail of `app.post('/sse')` in `src/unnamed/part_000`
(lines 250-259): if the session has a connection, write the envelope there
and answer `202 { status: 'sent via SSE' }`; otherwise answer with the
envelope itself. -/
def deliverPart000 (conns : Registry) (sid : String) (r : McpResponse) :
    DeliveryResult :=
  match conns.lookup sid with
  | some _ => { sseWrites := [sid], httpStatus := 202, httpBody := .ackSse sid }
  | none => { sseWrites := [], httpStatus := 200, httpBody := .full r }

/-! ## Tools-list cache and warmup guard (`src/unnamed/part_001`, `part_003`) -/

/-- `chatmiToolsListCache` (`src/unnamed/part_001` lines 120-123): the single
global cache entry — cached payload and timestamp of the last successful
refresh (milliseconds). -/
structure WarmCache where
  data : Option String
  timestamp : Int
deriving DecidableEq, Repr

/-- `TOOLS_LIST_CACHE_TTL = 60 * 1000`. -/
def TOOLS_LIST_CACHE_TTL : Int := 60 * 1000

/-- `isToolsListCacheValid` (`src/unnamed/part_001` lines 127-132 and
`part_003` lines 20-25): `data !== null && Date.now() - timestamp < TTL`,
with `Date.now()` passed in as `now`. -/
def isToolsListCacheValid (cache : WarmCache) (now : Int) : Bool :=
  cache.data.isSome && decide (now - cache.timestamp < TOOLS_LIST_CACHE_TTL)

/-- What the `tools/list` branch of `app.post('/sse')` in `part_001`
(lines 445-458) decides: serve from cache, or fall through to a fresh
backend call. -/
inductive ToolsAction where
  | serveCached (data : Option String)
  | callBackend
deriving DecidableEq, Repr

/-- The `tools/list` serving decision of `src/unnamed/part_001`
lines 445-458: when the cache is valid the cached payload is served
unchanged (`result: chatmiToolsListCache.data`); otherwise
`sendChatmiRequest` is invoked. -/
def handleToolsListRequest (cache : WarmCache) (now : Int) : ToolsAction :=
  if isToolsListCacheValid cache now then .serveCached cache.data
  else .callBackend

/-- `WARMUP_COOLDOWN_MS = 10_000`. -/
def WARMUP_COOLDOWN_MS : Int := 10000

/-- Detection of a rate-limit failure: `/429/.test(error.message)`
(`src/unnamed/part_001` line 253) — the message contains `429`. -/
def contains429 : List Char → Bool
  | '4' :: '2' :: '9' :: _ => true
  | _ :: rest => contains429 rest
  | [] => false

/-- `/429/.test(msg)` on a whole string. -/
def msgHas429 (msg : String) : Bool := contains429 msg.data

/-- The module-level warmup state of `src/unnamed/part_001`: the cache,
`warmToolsListCooldownUntil`, and `warmToolsListPromise` (modelled as the
handle number of the outstanding refresh, if any).  `nextHandle` numbers
refresh launches and `backendCalls` counts the `sendChatmiRequest` calls
issued by `warmToolsList` (one per launch). -/
structure WarmState where
  cache : WarmCache
  cooldownUntil : Int
  inFlight : Option Nat
  nextHandle : Nat
  backendCalls : Nat
deriving DecidableEq, Repr

/-- `triggerWarmToolsList` (`src/unnamed/part_001` lines 221-269): no-op when
the cache is valid; no-op during cooldown; return the existing in-flight
promise when one exists; otherwise launch `warmToolsList` (which issues one
backend call) and record its promise.  Returns the new state and the
returned promise handle. -/
def triggerWarmToolsList (now : Int) (s : WarmState) : WarmState × Option Nat :=
  if isToolsListCacheValid s.cache now then (s, none)
  else if now < s.cooldownUntil then (s, none)
  else
    match s.inFlight with
    | some h => (s, some h)
    | none =>
      ({ s with
          inFlight := some s.nextHandle
          nextHandle := s.nextHandle + 1
          backendCalls := s.backendCalls + 1 },
        some s.nextHandle)

/-- Completion of the in-flight refresh: success payload or failure message. -/
inductive RefreshResult where
  | success (payload : String)
  | failure (message : String)
deriving DecidableEq, Repr

/-- Settlement of the `warmToolsList(...)` promise in
`src/unnamed/part_001` lines 202-264: on success store the payload with the
completion time and clear the cooldown (lines 211-213); on failure set the
cooldown iff the message matches `/429/` (lines 253-259); in both cases the
`.finally` handler clears `warmToolsListPromise` (lines 262-264). -/
def completeWarm (r : RefreshResult) (now : Int) (s : WarmState) : WarmState :=
  match r with
  | .success p =>
    { s with cache := ⟨some p, now⟩, cooldownUntil := 0, inFlight := none }
  | .failure msg =>
    { s with
        cooldownUntil :=
          if msgHas429 msg then now + WARMUP_COOLDOWN_MS else s.cooldownUntil
        inFlight := none }

/-! ## Session resolution and registry lifecycle (`src/server.js`) -/

/-- The module-level routing state of `src/server.js`: the keys of the
`connections` map in insertion order, and `lastConnectedSessionId`. -/
structure RouterState where
  sessions : List String
  lastConnected : Option String
deriving DecidableEq, Repr

/-- `Map.set` on the key list: an existing key keeps its position, a new key
is appended (JavaScript `Map` insertion-order semantics). -/
def mapSet (keys : List String) (k : String) : List String :=
  if keys.contains k then keys else keys ++ [k]

/-- The session identifier chosen by `app.get('/sse')` in `src/server.js`
line 305: `req.query.session || generated`. -/
def resolveGetSession (query : Option String) (generated : String) : String :=
  match jsOr query (some generated) with
  | some s => s
  | none => generated

/-- Effect of `app.get('/sse')` on the routing state (`src/server.js`
lines 321-322): store the connection and remember it as last connected. -/
def sseOpen (st : RouterState) (sid : String) : RouterState :=
  { sessions := mapSet st.sessions sid, lastConnected := some sid }

/-- Effect of the `close` handler (`src/server.js` lines 358-365): delete the
entry; when the closing session was the last connected one, fall back to the
first remaining key of the map (or null). -/
def sseClose (st : RouterState) (sid : String) : RouterState :=
  let remaining := st.sessions.erase sid
  { sessions := remaining
    lastConnected :=
      if st.lastConnected == some sid then remaining.head?
      else st.lastConnected }

/-- Channel lifecycle events against the `src/server.js` routing state. -/
inductive RouterEvent where
  | openChannel (sid : String)
  | closeChannel (sid : String)
deriving DecidableEq, Repr

/-- One lifecycle step. -/
def routerStep (st : RouterState) : RouterEvent → RouterState
  | .openChannel sid => sseOpen st sid
  | .closeChannel sid => sseClose st sid

/-- Run a sequence of lifecycle events from the initial state
(`connections` empty, `lastConnectedSessionId = null`). -/
def runRouter (evs : List RouterEvent) : RouterState :=
  evs.foldl routerStep ⟨[], none⟩

/-- Session resolution of `app.post('/sse')` in `src/server.js`
lines 375-383:
`req.query.session || req.headers['x-session-id']`, then the only open
session when exactly one connection exists, then
`lastConnectedSessionId || 'default'`. -/
def resolvePostSession (st : RouterState) (query header : Option String) :
    String :=
  let sid0 := jsOr query header
  let sid1 :=
    if !truthy sid0 && st.sessions.length == 1 then st.sessions.head?
    else sid0
  let sid2 := if truthy sid1 then sid1 else jsOr st.lastConnected (some "default")
  sid2.getD "default"

/-- Modelled from the spec: "the identifier of the most recently opened
session" — the open sessions ordered by their last `openChannel` event; a
reopen moves a session to the most-recent end, a close removes it. -/
def openOrder (evs : List RouterEvent) : List String :=
  evs.foldl
    (fun acc ev =>
      match ev with
      | .openChannel sid => acc.erase sid ++ [sid]
      | .closeChannel sid => acc.erase sid)
    []

/-- Modelled from the spec: the most recently opened session still open. -/
def specMostRecentlyOpened (evs : List RouterEvent) : Option String :=
  (openOrder evs).getLast?

/-! ## Request validation and the POST pipeline -/

/-- The fields of the inbound JSON-RPC envelope the handlers inspect
(`jsonrpc`, `method`, `id`), each possibly absent. -/
structure McpRequestBody where
  jsonrpc : Option String
  method : Option String
  reqId : Option Int
deriving DecidableEq, Repr

/-- `mcpRequest?.id || null` (`src/server.js` line 394): JavaScript `||`
also maps a present-but-falsy id (`0`) to `null`. -/
def jsIdOrNull (body : Option McpRequestBody) : Option Int :=
  match body with
  | none => none
  | some r =>
    match r.reqId with
    | some i => if i ≠ 0 then some i else none
    | none => none

/-- The envelope validation of `src/server.js` line 390 (also `part_000`
line 188, `part_001` line 432, `part_003` line 150):
`!(!mcpRequest || mcpRequest.jsonrpc !== '2.0' || !mcpRequest.method)`. -/
def validShapeServer (body : Option McpRequestBody) : Bool :=
  match body with
  | none => false
  | some r => (r.jsonrpc == some "2.0") && truthy r.method

/-- The envelope validation of `handleMcpMessage` in `src/unnamed/part_002`
line 126: `!(!mcpRequest || mcpRequest.jsonrpc !== '2.0')` — the method
field is not checked there. -/
def validShape002 (body : Option McpRequestBody) : Bool :=
  match body with
  | none => false
  | some r => r.jsonrpc == some "2.0"

/-- Result of the backend exchange (`sendChatmiRequest`), as an oracle: the
extracted reply payload, or the thrown error's message. -/
inductive BackendOutcome where
  | ok (result : String)
  | err (message : String)
deriving DecidableEq, Repr

/-- Observable outcome of one POST request: whether the backend was called,
the push writes performed, and the synchronous HTTP response. -/
structure PostResult where
  backendCalled : Bool
  sseWrites : List String
  httpStatus : Nat
  httpBody : HttpBody
deriving DecidableEq, Repr

/-- `app.post('/sse')` of `src/server.js` (lines 387-445), after session
resolution: reject a malformed envelope with `400` / code `-32600` before
any backend call or channel delivery; otherwise call the backend and route
the success or `-32603` error envelope through `deliverMcpResponse`. -/
def processPostServer (conns : Registry) (sid : String)
    (body : Option McpRequestBody) (backend : BackendOutcome) : PostResult :=
  if validShapeServer body then
    match backend with
    | .ok result =>
      let resp : McpResponse := ⟨body.bind (·.reqId), .result result⟩
      let d := deliverMcpResponseServer conns (some sid) resp 200
      { backendCalled := true, sseWrites := d.sseWrites
        httpStatus := d.httpStatus, httpBody := d.httpBody }
    | .err msg =>
      let resp : McpResponse := ⟨jsIdOrNull body, .rpcError (-32603) msg⟩
      let d := deliverMcpResponseServer conns (some sid) resp 500
      { backendCalled := true, sseWrites := d.sseWrites
        httpStatus := d.httpStatus, httpBody := d.httpBody }
  else
    { backendCalled := false, sseWrites := [], httpStatus := 400
      httpBody := .full ⟨jsIdOrNull body, .rpcError (-32600) "Invalid Request"⟩ }

/-! ## The strict UUID-validating variant (`src/unnamed/part_002`) -/

/-- Case-insensitive hexadecimal digit (`[0-9a-f]` under the `/i` flag). -/
def isHexCI (c : Char) : Bool :=
  (decide ('0' ≤ c) && decide (c ≤ '9')) ||
  (decide ('a' ≤ c) && decide (c ≤ 'f')) ||
  (decide ('A' ≤ c) && decide (c ≤ 'F'))

/-- Position-wise check of the `UUID_REGEX` pattern
`^[0-9a-f]{8}-[0-9a-f]{4}-[1-5][0-9a-f]{3}-[89ab][0-9a-f]{3}-[0-9a-f]{12}$/i`
(`src/unnamed/part_002` line 14). -/
def uuidCharOk (i : Nat) (c : Char) : Bool :=
  if i == 8 || i == 13 || i == 18 || i == 23 then c == '-'
  else if i == 14 then decide ('1' ≤ c) && decide (c ≤ '5')
  else if i == 19 then
    c == '8' || c == '9' || c == 'a' || c == 'b' || c == 'A' || c == 'B'
  else isHexCI c

/-- `UUID_REGEX.test(s)`. -/
def uuidTest (s : String) : Bool :=
  s.data.length == 36 &&
    (List.range 36).all (fun i => uuidCharOk i (s.data.getD i ' '))

/-- `ensureSessionId` of `src/unnamed/part_002` (lines 19-37): a truthy
supplied value is accepted iff it matches the UUID pattern; a non-matching
value is ignored (warning only); with `createIfMissing` a fresh identifier
(`randomUUID()`, passed in as `generated`) is returned, otherwise `null`. -/
def ensureSessionId (provided : Option String) (createIfMissing : Bool)
    (generated : String) : Option String :=
  match provided with
  | some p =>
    if p ≠ "" then
      if uuidTest p then some p
      else if createIfMissing then some generated else none
    else if createIfMissing then some generated else none
  | none => if createIfMissing then some generated else none

/-- The error message of the `-32602` rejection in `part_002` line 116. -/
def invalidSessionMsg : String := "Missing or invalid sessionId (must be UUID)"

/-- `handleMcpMessage` of `src/unnamed/part_002` (lines 101-252).  The
registry of this variant maps session identifiers to connections without
liveness flags; only membership matters to `sendSseEvent` (lines 48-60).
The fixed `initialize` capability descriptor is abstracted as an opaque
string. -/
def initResultString : String := "chatmi-mcp-server 1.0.0 capabilities"

/-- One `sendSseEvent`-based delivery in `part_002`: write iff the session
has a connection; acknowledge with `202` on a write, else answer with the
envelope (status 500 for error envelopes, 200 otherwise). -/
def deliver002 (conns : List String) (sid : String) (r : McpResponse)
    (failStatus : Nat) : PostResult → PostResult := fun base =>
  if conns.contains sid then
    { base with sseWrites := [sid], httpStatus := 202, httpBody := .ackSse sid }
  else
    { base with sseWrites := [], httpStatus := failStatus, httpBody := .full r }

/-- The full observable pipeline of `handleMcpMessage` in
`src/unnamed/part_002`: session resolution (strict, no generation), envelope
validation (no method check), the `initialize` short-circuit, then the
backend exchange with SSE-first delivery. -/
def processPost002 (conns : List String) (provided : Option String)
    (generated : String) (body : Option McpRequestBody)
    (backend : BackendOutcome) : PostResult :=
  match ensureSessionId provided false generated with
  | none =>
    { backendCalled := false, sseWrites := [], httpStatus := 400
      httpBody := .full ⟨jsIdOrNull body, .rpcError (-32602) invalidSessionMsg⟩ }
  | some sid =>
    if validShape002 body then
      if (body.bind (·.method)) == some "initialize" then
        let resp : McpResponse := ⟨body.bind (·.reqId), .result initResultString⟩
        deliver002 conns sid resp 200
          { backendCalled := false, sseWrites := [], httpStatus := 0
            httpBody := .full resp }
      else
        match backend with
        | .ok result =>
          let resp : McpResponse := ⟨body.bind (·.reqId), .result result⟩
          deliver002 conns sid resp 200
            { backendCalled := true, sseWrites := [], httpStatus := 0
              httpBody := .full resp }
        | .err msg =>
          let resp : McpResponse := ⟨jsIdOrNull body, .rpcError (-32603) msg⟩
          deliver002 conns sid resp 500
            { backendCalled := true, sseWrites := [], httpStatus := 0
              httpBody := .full resp }
    else
      { backendCalled := false, sseWrites := [], httpStatus := 400
        httpBody := .full ⟨jsIdOrNull body, .rpcError (-32600) "Invalid Request"⟩ }

/-- Registry lifecycle events of the strict variant: `app.get('/sse')`
(`part_002` lines 62-98) resolves the identifier through `ensureSessionId`
with `createIfMissing: true` (the generated `randomUUID()` value is the
event's `gen` field) and stores the connection; the `close` handler
(lines 94-97) deletes it. -/
inductive RegEvent where
  | connect (provided : Option String) (gen : String)
  | disconnect (sid : String)
deriving DecidableEq, Repr

/-- One registry step of the strict variant (key list in insertion order). -/
def regStep (reg : List String) : RegEvent → List String
  | .connect provided gen =>
    match ensureSessionId provided true gen with
    | some sid => mapSet reg sid
    | none => reg
  | .disconnect sid => reg.erase sid

/-- Run the strict-variant registry from empty. -/
def runReg (evs : List RegEvent) : List String :=
  evs.foldl regStep []

/-! ## Helper lemmas -/

lemma isWritableServer_eq_true_iff (c : Conn) :
    isWritableServer c = true ↔
      c.writableEnded = false ∧ c.writableFinished = false ∧ c.destroyed = false := by
  rcases c with ⟨e, f, d⟩
  cases e <;> cases f <;> cases d <;> simp [isWritableServer]

lemma filterMap_writeToConnection (l : Registry) :
    l.filterMap writeToConnection =
      (l.filter (fun e => isWritableServer e.2)).map Prod.fst := by
  induction l with
  | nil => rfl
  | cons e t ih =>
    cases h : isWritableServer e.2 <;>
      simp [List.filterMap_cons, List.filter_cons, writeToConnection, h, ih]

lemma trigger_frozen_of_inFlight (now : Int) (s : WarmState) (h : Nat)
    (hin : s.inFlight = some h) : (triggerWarmToolsList now s).1 = s := by
  simp only [triggerWarmToolsList, hin]
  split_ifs <;> rfl

lemma trigger_frozen_of_cooldown (now : Int) (s : WarmState)
    (hcd : now < s.cooldownUntil) : (triggerWarmToolsList now s).1 = s := by
  unfold triggerWarmToolsList
  by_cases h1 : isToolsListCacheValid s.cache now = true
  · simp [h1]
  · simp [h1, hcd]

lemma foldl_trigger_frozen (ts : List Int) (s : WarmState)
    (h : ∀ t ∈ ts, t < s.cooldownUntil) :
    ts.foldl (fun st t => (triggerWarmToolsList t st).1) s = s := by
  induction ts with
  | nil => rfl
  | cons t rest ih =>
    simp only [List.foldl_cons]
    rw [trigger_frozen_of_cooldown t s (h t (List.mem_cons_self _ _))]
    exact ih (fun t' ht' => h t' (List.mem_cons_of_mem _ ht'))

lemma ensure_create_uuid (p : Option String) (g : String)
    (hg : uuidTest g = true) :
    ∃ x, ensureSessionId p true g = some x ∧ uuidTest x = true := by
  rcases p with _ | s
  · exact ⟨g, rfl, hg⟩
  · by_cases hs : s = ""
    · subst hs
      exact ⟨g, by simp [ensureSessionId], hg⟩
    · by_cases hu : uuidTest s = true
      · exact ⟨s, by simp [ensureSessionId, hs, hu], hu⟩
      · exact ⟨g, by simp [ensureSessionId, hs, hu], hg⟩

/-! ## Claims -/

/-- C6: `isToolsListCacheValid` returns true iff a cached value exists and
its age is strictly below 60 seconds; a cache entry written at time `T` is
served unchanged at `T+59s`, and at `T+61s` it is not served — the request
falls through to a fresh backend call. -/
theorem cache_ttl_sixty_seconds (cache : WarmCache) (now : Int) (d : String)
    (T : Int) :
    (isToolsListCacheValid cache now = true ↔
      cache.data.isSome = true ∧ now - cache.timestamp < 60 * 1000) ∧
    handleToolsListRequest ⟨some d, T⟩ (T + 59000) = .serveCached (some d) ∧
    handleToolsListRequest ⟨some d, T⟩ (T + 61000) = .callBackend := by
  refine ⟨?_, ?_, ?_⟩
  · simp [isToolsListCacheValid, TOOLS_LIST_CACHE_TTL]
  · have h : isToolsListCacheValid ⟨some d, T⟩ (T + 59000) = true := by
      simp [isToolsListCacheValid, TOOLS_LIST_CACHE_TTL]
    simp [handleToolsListRequest, h]
  · have h : isToolsListCacheValid ⟨some d, T⟩ (T + 61000) = false := by
      simp [isToolsListCacheValid, TOOLS_LIST_CACHE_TTL]
    simp [handleToolsListRequest, h]

/-- C1 counterexample: in `src/server.js`, a reply that is written to a live
push channel is nevertheless also returned synchronously as the full reply
envelope (not a lightweight acknowledgement) — both deliveries occur. -/
theorem push_plus_full_sync_reply_cex :
    (deliverMcpResponseServer [("s", Conn.mk false false false)] (some "s")
        ⟨some 1, .result "payload"⟩ 200).sseWrites = ["s"] ∧
    (deliverMcpResponseServer [("s", Conn.mk false false false)] (some "s")
        ⟨some 1, .result "payload"⟩ 200).httpBody =
      .full ⟨some 1, .result "payload"⟩ ∧
    ∀ sid, (deliverMcpResponseServer [("s", Conn.mk false false false)]
        (some "s") ⟨some 1, .result "payload"⟩ 200).httpBody ≠ .ackSse sid := by
  refine ⟨by decide, by decide, ?_⟩
  intro sid h
  simp [deliverMcpResponseServer] at h

/-- C1 (amended): in the `part_000` variant a push delivery is acknowledged
with `202 { status: 'sent via SSE' }` and the full reply is returned
synchronously only when no push write occurred — never both; in the
`src/server.js` variant `deliverMcpResponse` always returns the full reply
envelope synchronously, even when a push delivery occurred. -/
theorem push_vs_sync_reply_exclusivity :
    (∀ (conns : Registry) (sid : String) (r : McpResponse),
      ((deliverPart000 conns sid r).sseWrites ≠ [] →
        (deliverPart000 conns sid r).httpBody = .ackSse sid ∧
        (deliverPart000 conns sid r).httpStatus = 202) ∧
      ((deliverPart000 conns sid r).sseWrites = [] →
        (deliverPart000 conns sid r).httpBody = .full r ∧
        (deliverPart000 conns sid r).httpStatus = 200)) ∧
    (∀ (conns : Registry) (sid : Option String) (r : McpResponse) (code : Nat),
      (deliverMcpResponseServer conns sid r code).httpBody = .full r) := by
  constructor
  · intro conns sid r
    unfold deliverPart000
    cases h : conns.lookup sid <;> simp
  · intro conns sid r code
    rfl

/-- C1 witness. -/
theorem push_vs_sync_reply_exclusivity_witness :
    (deliverPart000 [("s", Conn.mk false false false)] "s"
        ⟨some 1, .result "x"⟩).httpBody = .ackSse "s" ∧
    (deliverPart000 [("s", Conn.mk false false false)] "s"
        ⟨some 1, .result "x"⟩).httpStatus = 202 :=
  (push_vs_sync_reply_exclusivity.1 [("s", Conn.mk false false false)] "s"
    ⟨some 1, .result "x"⟩).1 (by decide)

/-- C2 counterexample: the resolver branches on registry membership, not
liveness.  With two open sessions, where the named session `a` is dead and
`b` is live, the claim requires a broadcast write to all open channels, but
the code takes the exact-match branch, skips the dead channel, and writes
nothing — in particular not to the live `b`. -/
theorem delivery_resolver_order_cex :
    (writeSsePayload [("a", Conn.mk true true true),
        ("b", Conn.mk false false false)] (some "a")).1 = [] ∧
    (writeSsePayload [("a", Conn.mk true true true),
        ("b", Conn.mk false false false)] (some "a")).2 =
      .deliveredExact ∧
    isWritableServer (Conn.mk true true true) = false ∧
    isWritableServer (Conn.mk false false false) = true ∧
    ([("a", Conn.mk true true true),
        ("b", Conn.mk false false false)] : Registry).length > 1 ∧
    "b" ∉ (writeSsePayload [("a", Conn.mk true true true),
        ("b", Conn.mk false false false)] (some "a")).1 := by
  decide

/-- C2 (amended): the resolver branches, in order, on registry membership of
the truthy target identifier (delivery then targets that entry only, the
write occurring iff the channel is live, with no fallback), else a single
open session, else a broadcast to all open sessions writing exactly to the
live ones, else the no-channel outcome with no write. -/
theorem delivery_resolver_order (conns : Registry) (sid : Option String) :
    (∀ s c, sid = some s → s ≠ "" → conns.lookup s = some c →
      (writeSsePayload conns sid).1 =
        (if isWritableServer c then [s] else []) ∧
      (writeSsePayload conns sid).2 = .deliveredExact) ∧
    (jsMatch conns sid = none →
      (∀ e, conns = [e] →
        (writeSsePayload conns sid).1 =
          (if isWritableServer e.2 then [e.1] else []) ∧
        (writeSsePayload conns sid).2 = .deliveredFallbackSingle) ∧
      (conns.length > 1 →
        (writeSsePayload conns sid).1 =
          (conns.filter (fun e => isWritableServer e.2)).map Prod.fst ∧
        (writeSsePayload conns sid).2 = .deliveredFallbackBroadcast) ∧
      (conns = [] →
        (writeSsePayload conns sid).1 = [] ∧
        (writeSsePayload conns sid).2 = .noChannel)) := by
  constructor
  · intro s c hs hne hlk
    subst hs
    have hm : jsMatch conns (some s) = some (s, c) := by
      simp [jsMatch, hne, hlk]
    simp only [writeSsePayload, selectedConnections, hm]
    cases h : isWritableServer c <;>
      simp [writeToConnection, List.filterMap_cons, h]
  · intro hm
    refine ⟨?_, ?_, ?_⟩
    · rintro e rfl
      simp only [writeSsePayload, selectedConnections, hm, fallbackSelection]
      cases h : isWritableServer e.2 <;>
        simp [writeToConnection, List.filterMap_cons, h]
    · intro hlen
      rcases conns with _ | ⟨e1, _ | ⟨e2, rest⟩⟩
      · simp at hlen
      · simp at hlen
      · simp only [writeSsePayload, selectedConnections, hm, fallbackSelection]
        exact ⟨filterMap_writeToConnection _, trivial⟩
    · rintro rfl
      simp [writeSsePayload, selectedConnections, hm, fallbackSelection]

/-- C2 witness. -/
theorem delivery_resolver_order_witness :
    (writeSsePayload [("a", Conn.mk false false false)] (some "a")).1 =
      (if isWritableServer (Conn.mk false false false) then ["a"] else []) ∧
    (writeSsePayload [("a", Conn.mk false false false)] (some "a")).2 =
      DeliveryOutcome.deliveredExact :=
  (delivery_resolver_order [("a", Conn.mk false false false)] (some "a")).1
    "a" (Conn.mk false false false) rfl (by decide) (by decide)

/-- C3: every write performed by the `src/server.js` resolver is on a
selected channel that is simultaneously not ended, not finished and not
destroyed; a channel failing any of the three conditions is never written
to.  For `part_001`'s two-flag test, under the stream invariant that a
finished channel is also ended, a write likewise occurs iff all three flags
are clear. -/
theorem liveness_gate_for_writes :
    (∀ (conns : Registry) (sid : Option String) (w : String),
      w ∈ (writeSsePayload conns sid).1 →
      ∃ c : Conn, (w, c) ∈ (selectedConnections conns sid).1 ∧
        c.writableEnded = false ∧ c.writableFinished = false ∧
        c.destroyed = false) ∧
    (∀ (s : String) (c : Conn),
      c.writableEnded = true ∨ c.writableFinished = true ∨ c.destroyed = true →
      writeToConnection (s, c) = none) ∧
    (∀ (s : String) (c : Conn),
      (c.writableFinished = true → c.writableEnded = true) →
      ((writeToConnection01 (s, c)).isSome = true ↔
        c.writableEnded = false ∧ c.writableFinished = false ∧
        c.destroyed = false)) := by
  refine ⟨?_, ?_, ?_⟩
  · intro conns sid w hw
    simp only [writeSsePayload, List.mem_filterMap] at hw
    obtain ⟨⟨s, c⟩, he, hwc⟩ := hw
    by_cases h : isWritableServer c = true
    · refine ⟨c, ?_, (isWritableServer_eq_true_iff c).mp h⟩
      have hs : s = w := by
        simpa [writeToConnection, h] using hwc
      exact hs ▸ he
    · simp [writeToConnection, h] at hwc
  · intro s c h
    rcases c with ⟨e, f, d⟩
    cases e <;> cases f <;> cases d <;>
      simp_all [writeToConnection, isWritableServer]
  · intro s c h
    rcases c with ⟨e, f, d⟩
    cases e <;> cases f <;> cases d <;>
      simp_all [writeToConnection01, isWritable01]

/-- C3 witness. -/
theorem liveness_gate_for_writes_witness :
    ∃ c : Conn,
      ("s", c) ∈ (selectedConnections [("s", Conn.mk false false false)]
        (some "s")).1 ∧
      c.writableEnded = false ∧ c.writableFinished = false ∧
      c.destroyed = false :=
  liveness_gate_for_writes.1 [("s", Conn.mk false false false)] (some "s") "s"
    (by decide)

/-- C4 counterexample: after opening sessions `a`, `b`, `c` and closing `c`,
the close handler resets `lastConnectedSessionId` to the first remaining
registry key `a` (the oldest), so a request with no identifier resolves to
`a` although the most recently opened open session is `b`. -/
theorem session_fallback_chain_cex :
    resolvePostSession
      (runRouter [.openChannel "a", .openChannel "b", .openChannel "c",
        .closeChannel "c"]) none none = "a" ∧
    specMostRecentlyOpened [.openChannel "a", .openChannel "b",
      .openChannel "c", .closeChannel "c"] = some "b" ∧
    ("a" : String) ≠ "b" := by
  decide

/-- C4 (amended): resolution on the submission path follows, in order, the
truthy query parameter, the truthy header, the only open session when
exactly one is open, then the tracked `lastConnectedSessionId` (set on each
channel open and, when that session closes, reset to the first remaining
registry key — not necessarily the most recently opened), then the fixed
label `default`. -/
theorem session_fallback_chain (st : RouterState) (q h : Option String)
    (s : String) :
    (q = some s → s ≠ "" → resolvePostSession st q h = s) ∧
    (truthy q = false → h = some s → s ≠ "" →
      resolvePostSession st q h = s) ∧
    (truthy q = false → truthy h = false → st.sessions = [s] → s ≠ "" →
      resolvePostSession st q h = s) ∧
    (truthy q = false → truthy h = false → st.sessions.length ≠ 1 →
      st.lastConnected = some s → s ≠ "" → resolvePostSession st q h = s) ∧
    (truthy q = false → truthy h = false → st.sessions.length ≠ 1 →
      truthy st.lastConnected = false →
      resolvePostSession st q h = "default") := by
  refine ⟨?_, ?_, ?_, ?_, ?_⟩
  · rintro rfl hne
    simp [resolvePostSession, jsOr, truthy, hne]
  · intro hq
    rintro rfl hne
    have h0 : jsOr q (some s) = some s := by simp [jsOr, hq]
    have ht : truthy (some s) = true := by simp [truthy, hne]
    simp [resolvePostSession, h0, ht]
  · intro hq hh hsess hne
    have h0 : jsOr q h = h := by simp [jsOr, hq]
    have ht : truthy (some s) = true := by simp [truthy, hne]
    simp [resolvePostSession, h0, hh, hsess, ht]
  · intro hq hh hlen hlast hne
    have h0 : jsOr q h = h := by simp [jsOr, hq]
    have hlen2 : (st.sessions.length == 1) = false := by simp [hlen]
    have hjl : jsOr st.lastConnected (some "default") = some s := by
      rw [hlast]
      simp [jsOr, truthy, hne]
    simp [resolvePostSession, h0, hh, hlen2, hjl]
  · intro hq hh hlen hlast
    have h0 : jsOr q h = h := by simp [jsOr, hq]
    have hlen2 : (st.sessions.length == 1) = false := by simp [hlen]
    have hjl : jsOr st.lastConnected (some "default") = some "default" := by
      simp [jsOr, hlast]
    simp [resolvePostSession, h0, hh, hlen2, hjl]

/-- C4 witness. -/
theorem session_fallback_chain_witness :
    resolvePostSession ⟨["x"], some "x"⟩ (some "q") (some "hh") = "q" :=
  (session_fallback_chain ⟨["x"], some "x"⟩ (some "q") (some "hh") "q").1 rfl
    (by decide)

/-- C5 counterexample: in `src/unnamed/part_002`, a request with
`jsonrpc: '2.0'` but no `method` passes validation (only the body and the
version tag are checked) and is forwarded to the backend instead of being
rejected with `-32600`. -/
theorem malformed_rejection_cex :
    (processPost002 ["123e4567-e89b-42d3-a456-426614174000"]
      (some "123e4567-e89b-42d3-a456-426614174000") ""
      (some ⟨some "2.0", none, some 1⟩) (.ok "r")).backendCalled = true ∧
    (processPost002 ["123e4567-e89b-42d3-a456-426614174000"]
      (some "123e4567-e89b-42d3-a456-426614174000") ""
      (some ⟨some "2.0", none, some 1⟩) (.ok "r")).httpBody ≠
      .full ⟨some 1, .rpcError (-32600) "Invalid Request"⟩ := by
  decide

/-- C5 (amended): in `src/server.js` a request with an absent body, a
version tag other than `2.0`, or a falsy method is rejected with `400` /
code `-32600`, no backend call and no channel delivery, and the backend is
called exactly when the shape check passes; in `part_002` only an absent
body or a wrong version tag is so rejected (once the session resolved) — a
missing method is forwarded to the backend. -/
theorem malformed_rejection :
    (∀ (conns : Registry) (sid : String) (body : Option McpRequestBody)
        (backend : BackendOutcome),
      (processPostServer conns sid body backend).backendCalled =
        validShapeServer body ∧
      (validShapeServer body = false →
        processPostServer conns sid body backend =
          { backendCalled := false, sseWrites := [], httpStatus := 400
            httpBody := .full ⟨jsIdOrNull body,
              .rpcError (-32600) "Invalid Request"⟩ })) ∧
    (∀ (conns : List String) (provided : Option String) (generated : String)
        (body : Option McpRequestBody) (backend : BackendOutcome)
        (sid : String),
      ensureSessionId provided false generated = some sid →
      validShape002 body = false →
      processPost002 conns provided generated body backend =
        { backendCalled := false, sseWrites := [], httpStatus := 400
          httpBody := .full ⟨jsIdOrNull body,
            .rpcError (-32600) "Invalid Request"⟩ }) := by
  constructor
  · intro conns sid body backend
    by_cases hv : validShapeServer body = true
    · cases backend <;> simp [processPostServer, hv]
    · rw [Bool.not_eq_true] at hv
      cases backend <;> simp [processPostServer, hv]
  · intro conns provided generated body backend sid hsid hv
    simp [processPost002, hsid, hv]

/-- C5 witness. -/
theorem malformed_rejection_witness :
    processPostServer [] "default" none (.ok "r") =
      { backendCalled := false, sseWrites := [], httpStatus := 400
        httpBody := .full ⟨jsIdOrNull none,
          .rpcError (-32600) "Invalid Request"⟩ } :=
  (malformed_rejection.1 [] "default" none (.ok "r")).2 rfl

/-- C7: a `triggerWarmToolsList` call while a refresh is outstanding leaves
the state (hence the backend-call count) unchanged and — once past the
validity and cooldown guards — returns the existing in-flight handle; two
consecutive triggers with no completion in between issue exactly one
backend call; and completion clears the in-flight marker on both the
success and the failure path. -/
theorem single_flight_refresh :
    (∀ (now : Int) (s : WarmState) (h : Nat), s.inFlight = some h →
      (triggerWarmToolsList now s).1 = s) ∧
    (∀ (now : Int) (s : WarmState) (h : Nat), s.inFlight = some h →
      isToolsListCacheValid s.cache now = false → ¬ now < s.cooldownUntil →
      (triggerWarmToolsList now s).2 = some h) ∧
    (∀ (t1 t2 : Int) (s : WarmState), s.inFlight = none →
      isToolsListCacheValid s.cache t1 = false → ¬ t1 < s.cooldownUntil →
      ((triggerWarmToolsList t2 (triggerWarmToolsList t1 s).1).1).backendCalls
        = s.backendCalls + 1) ∧
    (∀ (r : RefreshResult) (now : Int) (s : WarmState),
      (completeWarm r now s).inFlight = none) := by
  refine ⟨?_, ?_, ?_, ?_⟩
  · intro now s h hin
    exact trigger_frozen_of_inFlight now s h hin
  · intro now s h hin hv hcd
    simp [triggerWarmToolsList, hin, hv, hcd]
  · intro t1 t2 s hin hv hcd
    have h1 : (triggerWarmToolsList t1 s).1 =
        { s with inFlight := some s.nextHandle
                 nextHandle := s.nextHandle + 1
                 backendCalls := s.backendCalls + 1 } := by
      simp [triggerWarmToolsList, hin, hv, hcd]
    rw [h1, trigger_frozen_of_inFlight t2 _ s.nextHandle rfl]
  · intro r now s
    cases r <;> rfl

/-- C7 witness. -/
theorem single_flight_refresh_witness :
    ((triggerWarmToolsList 6
        (triggerWarmToolsList 5 ⟨⟨none, 0⟩, 0, none, 0, 0⟩).1).1).backendCalls
      = (⟨⟨none, 0⟩, 0, none, 0, 0⟩ : WarmState).backendCalls + 1 :=
  single_flight_refresh.2.2.1 5 6 ⟨⟨none, 0⟩, 0, none, 0, 0⟩ rfl (by decide)
    (by decide)

/-- C8: a refresh failure whose message matches `/429/`, completing at time
`T`, sets the cooldown deadline to `T+10s` and leaves the cache untouched;
any number of further triggers strictly before `T+10s` leave the state
(hence the backend-call count) unchanged; a failure not matching `/429/`
leaves both the cached payload with its timestamp and the cooldown
untouched. -/
theorem rate_limit_cooldown :
    (∀ (s : WarmState) (msg : String) (T : Int), msgHas429 msg = true →
      (completeWarm (.failure msg) T s).cooldownUntil = T + 10000 ∧
      (completeWarm (.failure msg) T s).cache = s.cache) ∧
    (∀ (s : WarmState) (msg : String) (T : Int), msgHas429 msg = true →
      ∀ ts : List Int, (∀ t ∈ ts, t < T + 10000) →
        ts.foldl (fun st t => (triggerWarmToolsList t st).1)
            (completeWarm (.failure msg) T s) =
          completeWarm (.failure msg) T s) ∧
    (∀ (s : WarmState) (msg : String) (T : Int), msgHas429 msg = false →
      (completeWarm (.failure msg) T s).cache = s.cache ∧
      (completeWarm (.failure msg) T s).cooldownUntil = s.cooldownUntil) := by
  refine ⟨?_, ?_, ?_⟩
  · intro s msg T h429
    simp [completeWarm, h429, WARMUP_COOLDOWN_MS]
  · intro s msg T h429 ts hts
    have hcd : (completeWarm (.failure msg) T s).cooldownUntil = T + 10000 := by
      simp [completeWarm, h429, WARMUP_COOLDOWN_MS]
    exact foldl_trigger_frozen ts _ (fun t ht => hcd ▸ hts t ht)
  · intro s msg T h429
    simp [completeWarm, h429]

/-- C8 witness. -/
theorem rate_limit_cooldown_witness :
    msgHas429 "Chatmi HTTP 429" = true ∧
    (completeWarm (.failure "Chatmi HTTP 429") 100
        ⟨⟨some "d", 0⟩, 0, none, 1, 1⟩).cooldownUntil = 100 + 10000 ∧
    (completeWarm (.failure "Chatmi HTTP 429") 100
        ⟨⟨some "d", 0⟩, 0, none, 1, 1⟩).cache =
      (⟨⟨some "d", 0⟩, 0, none, 1, 1⟩ : WarmState).cache :=
  ⟨by decide, rate_limit_cooldown.1 ⟨⟨some "d", 0⟩, 0, none, 1, 1⟩
    "Chatmi HTTP 429" 100 (by decide)⟩

/-- C9 counterexample: in the strict variant, a supplied non-UUID session
identifier on the submission path yields the `400` / `-32602` error
response — with no backend call and no channel write — even though exactly
one session is open; resolution does not continue to any fallback tier. -/
theorem non_uuid_treated_as_absent_cex :
    (processPost002 ["123e4567-e89b-42d3-a456-426614174000"]
        (some "not-a-uuid") "" (some ⟨some "2.0", some "tools/list", some 1⟩)
        (.ok "r")).httpStatus = 400 ∧
    (processPost002 ["123e4567-e89b-42d3-a456-426614174000"]
        (some "not-a-uuid") "" (some ⟨some "2.0", some "tools/list", some 1⟩)
        (.ok "r")).httpBody =
      .full ⟨some 1, .rpcError (-32602) invalidSessionMsg⟩ ∧
    (processPost002 ["123e4567-e89b-42d3-a456-426614174000"]
        (some "not-a-uuid") "" (some ⟨some "2.0", some "tools/list", some 1⟩)
        (.ok "r")).backendCalled = false ∧
    (processPost002 ["123e4567-e89b-42d3-a456-426614174000"]
        (some "not-a-uuid") "" (some ⟨some "2.0", some "tools/list", some 1⟩)
        (.ok "r")).sseWrites = [] := by
  decide

/-- C9 (amended): on the strict submission path a non-UUID supplied
identifier is ignored exactly like an absent one, but since no identifier
may be generated there, the handler answers `400` with code `-32602`; no
fallback to an open session, a most recently opened session or a default
label takes place. -/
theorem non_uuid_treated_as_absent (p generated : String) (hp : p ≠ "")
    (hu : uuidTest p = false) :
    ensureSessionId (some p) false generated = none ∧
    ensureSessionId (some p) false generated =
      ensureSessionId none false generated ∧
    (∀ (conns : List String) (body : Option McpRequestBody)
        (backend : BackendOutcome),
      processPost002 conns (some p) generated body backend =
        { backendCalled := false, sseWrites := [], httpStatus := 400
          httpBody := .full ⟨jsIdOrNull body,
            .rpcError (-32602) invalidSessionMsg⟩ }) := by
  have hnone : ensureSessionId (some p) false generated = none := by
    simp [ensureSessionId, hp, hu]
  refine ⟨hnone, ?_, ?_⟩
  · rw [hnone]; rfl
  · intro conns body backend
    simp [processPost002, hnone]

/-- C9 witness. -/
theorem non_uuid_treated_as_absent_witness :
    ensureSessionId (some "abc") false "" = none :=
  (non_uuid_treated_as_absent "abc" "" (by decide) (by decide)).1

/-- C10: in the strict variant, provided every generated identifier matches
the UUID pattern, every key of the session registry reachable by any
sequence of connect/disconnect events matches the UUID pattern: insertions
go through `ensureSessionId` with `createIfMissing`, and the only other
mutation is deletion on close. -/
theorem registry_keys_are_uuids (evs : List RegEvent)
    (hg : ∀ p g, RegEvent.connect p g ∈ evs → uuidTest g = true) :
    ∀ sid ∈ runReg evs, uuidTest sid = true := by
  suffices h : ∀ (l : List RegEvent) (reg : List String),
      (∀ p g, RegEvent.connect p g ∈ l → uuidTest g = true) →
      (∀ sid ∈ reg, uuidTest sid = true) →
      ∀ sid ∈ l.foldl regStep reg, uuidTest sid = true by
    exact h evs [] hg (by simp)
  intro l
  induction l with
  | nil =>
    intro reg _ hreg sid hsid
    exact hreg sid hsid
  | cons ev rest ih =>
    intro reg hgs hreg
    simp only [List.foldl_cons]
    apply ih
    · intro p g hmem
      exact hgs p g (List.mem_cons_of_mem _ hmem)
    · intro sid hsid
      cases ev with
      | connect p g =>
        have hgu : uuidTest g = true := hgs p g (List.mem_cons_self _ _)
        obtain ⟨x, hx, hxu⟩ := ensure_create_uuid p g hgu
        simp only [regStep, hx] at hsid
        unfold mapSet at hsid
        by_cases hc : reg.contains x = true
        · rw [if_pos hc] at hsid
          exact hreg sid hsid
        · rw [if_neg hc] at hsid
          rcases List.mem_append.mp hsid with h1 | h1
          · exact hreg sid h1
          · rw [List.mem_singleton] at h1
            subst h1
            exact hxu
      | disconnect s =>
        simp only [regStep] at hsid
        exact hreg sid (List.mem_of_mem_erase hsid)

/-- C10 witness. -/
theorem registry_keys_are_uuids_witness :
    uuidTest "123e4567-e89b-42d3-a456-426614174000" = true :=
  registry_keys_are_uuids
    [RegEvent.connect (some "nope") "123e4567-e89b-42d3-a456-426614174000"]
    (by
      intro p g hmem
      rw [List.mem_singleton] at hmem
      injection hmem with h1 h2
      rw [h2]
      decide)
    "123e4567-e89b-42d3-a456-426614174000" (by decide)

end McpRelay
